import Mathlib

/-!
Shallow embedding of the core game logic of the Aritmética PvP repository.

The definitions below are translated from:
* `src/utils/gameLogic.js` (difficulty configuration, reachability search,
  `findSolution`, `calculateNormalizedDamage`, streak system), and
* `server/gameManager.js` (server difficulty configuration, target generation,
  expression evaluation, `calculateDamage`, submission handling and round
  resolution).

JavaScript numbers are modelled by `Int` where the code only ever produces
integers (the combination searches guard division by exactness, so all values
stay integral) and by `ℚ` where arbitrary expression results flow (an
idealization of IEEE doubles).  The JS `Map` of games keyed by room code is
modelled per room as an `Option SGame`, with mutation as explicit state
passing.  `Math.random`-driven choices become explicit parameters.
-/

set_option allowUnsafeReducibility true
attribute [semireducible] Rat.add Rat.mul Rat.sub Rat.blt Rat.inv Rat.floor Rat.ceil

namespace AlgebraPvp

/-- The three difficulty profiles of the game. -/
inductive Difficulty
  | easy
  | medium
  | hard
deriving DecidableEq, Repr

/-- An inclusive integer range, as in the `{ min, max }` objects of the config. -/
structure RangeI where
  lo : Int
  hi : Int
deriving DecidableEq, Repr

/-- The `accuracyThresholds` object of a difficulty profile. -/
structure AccuracyThresholds where
  perfect : Nat
  excellent : Nat
  good : Nat
  ok : Nat
  missAt : Nat
deriving DecidableEq, Repr

/-- One entry of a profile's `streakConfig` table (from `gameLogic.js`). -/
structure StreakTier where
  minStreak : Nat
  name : String
  emoji : String
  bonus : Nat
  intensity : Nat
  color : String
deriving DecidableEq, Repr

/-- Server-side difficulty configuration, `DIFFICULTY_CONFIG` in
`server/gameManager.js`.  `allowMulDiv` records whether `*` (and `/`) belong
to the profile's operator set. -/
structure ServerConfig where
  cardRange : RangeI
  cardCount : Nat
  targetRange : RangeI
  allowParentheses : Bool
  operatorSymbols : List String
  accuracyThresholds : AccuracyThresholds
  playerHp : Int
deriving DecidableEq, Repr

/-- `DIFFICULTY_CONFIG` from `server/gameManager.js`. -/
def serverConfig : Difficulty → ServerConfig
  | .easy =>
    { cardRange := ⟨1, 9⟩, cardCount := 4, targetRange := ⟨5, 30⟩
      allowParentheses := false, operatorSymbols := ["+", "-"]
      accuracyThresholds := ⟨0, 3, 6, 10, 15⟩, playerHp := 150 }
  | .medium =>
    { cardRange := ⟨2, 10⟩, cardCount := 3, targetRange := ⟨10, 60⟩
      allowParentheses := true, operatorSymbols := ["+", "-", "*"]
      accuracyThresholds := ⟨0, 2, 4, 7, 12⟩, playerHp := 200 }
  | .hard =>
    { cardRange := ⟨2, 20⟩, cardCount := 3, targetRange := ⟨20, 120⟩
      allowParentheses := true, operatorSymbols := ["+", "-", "*", "/"]
      accuracyThresholds := ⟨0, 1, 2, 4, 8⟩, playerHp := 250 }

/-- The per-difficulty `streakConfig` tables from `DIFFICULTY_CONFIG` in
`gameLogic.js`. -/
def streakConfig : Difficulty → List StreakTier
  | .easy =>
    [ ⟨0, "", "", 0, 0, "transparent"⟩,
      ⟨3, "Calentando", "🔥", 5, 1, "#FF9F0A"⟩,
      ⟨4, "Encendido", "🔥🔥", 10, 2, "#FF6B35"⟩,
      ⟨5, "On Fire", "🔥🔥🔥", 15, 3, "#FF453A"⟩,
      ⟨6, "IMPARABLE", "🤯", 25, 4, "#AC8E68"⟩ ]
  | .medium =>
    [ ⟨0, "", "", 0, 0, "transparent"⟩,
      ⟨2, "En Fuego", "🔥", 8, 1, "#FF9F0A"⟩,
      ⟨3, "Imparable", "🔥🔥", 15, 2, "#FF6B35"⟩,
      ⟨4, "Dominando", "🔥🔥🔥", 25, 3, "#FF453A"⟩,
      ⟨5, "LEGENDARIO", "💀", 40, 4, "#FFD60A"⟩ ]
  | .hard =>
    [ ⟨0, "", "", 0, 0, "transparent"⟩,
      ⟨2, "Brutal", "⚡", 15, 1, "#FF453A"⟩,
      ⟨3, "Sádico", "⚡⚡", 30, 2, "#BF5AF2"⟩,
      ⟨4, "DIOS", "⚡⚡⚡", 50, 3, "#5E5CE6"⟩,
      ⟨5, "CALCULADORA HUMANA", "🧠", 80, 4, "#FFFFFF"⟩ ]

/-- `getStreakTier` from `gameLogic.js`: walk the tier table from the highest
index downward and return the first tier whose `minStreak` is at most the
streak, falling back to the first entry. -/
def getStreakTier (streak : Nat) (d : Difficulty) : StreakTier :=
  let cfg := streakConfig d
  match cfg.reverse.find? (fun t => streak ≥ t.minStreak) with
  | some t => t
  | none => cfg.headD ⟨0, "", "", 0, 0, ""⟩

/-- The record returned by `calculateStreakBonus`. -/
structure StreakBonusResult where
  oldStreak : Nat
  newStreak : Nat
  bonus : Nat
  tier : StreakTier
  tierChanged : Bool
  tierUp : Bool
  streakBroken : Bool
  showAnimation : Bool
deriving DecidableEq, Repr

/-- `calculateStreakBonus` from `gameLogic.js`. -/
def calculateStreakBonus (currentStreak : Nat) (isPerfect : Bool)
    (d : Difficulty) : StreakBonusResult :=
  let newStreak := if isPerfect then currentStreak + 1 else 0
  let oldTier := getStreakTier currentStreak d
  let newTier := getStreakTier newStreak d
  let tierChanged := newTier.intensity ≠ oldTier.intensity
  let tierUp := newTier.intensity > oldTier.intensity
  let streakBroken := !isPerfect && currentStreak ≥ 2
  { oldStreak := currentStreak, newStreak := newStreak, bonus := newTier.bonus
    tier := newTier, tierChanged := tierChanged, tierUp := tierUp
    streakBroken := streakBroken, showAnimation := tierUp }

/-- The record returned by `calculateNormalizedDamage` (UI-only fields such as
`accuracyLabel` and `bonusBreakdown` are omitted). -/
structure NormalizedDamage where
  damage : Int
  rawDamage : Nat
  baseDamage : Nat
  cardBonus : Nat
  operatorBonus : Nat
  divisionBonus : Nat
  accuracyMultiplier : ℚ
  accuracyType : String
  isMasterPlay : Bool
  miss : Bool
deriving DecidableEq, Repr

/-- The `CARD_BONUSES` lookup (`{ 2: 0, 3: 10, 4: 25 }`, defaulting to 0). -/
def cardBonusTable : Nat → Nat
  | 2 => 0
  | 3 => 10
  | 4 => 25
  | _ => 0

/-- `calculateNormalizedDamage` from `gameLogic.js`.  Note that the accuracy
classification uses the fixed cutoffs 0 / 5 / 10 and takes no difficulty
parameter. -/
def calculateNormalizedDamage (cardsUsed : Nat) (operatorsUsed : List Char)
    (difference : ℚ) (hasExactDivision : Bool) : NormalizedDamage :=
  let BASE_DAMAGE : Nat := 20
  let cardBonus := cardBonusTable cardsUsed
  let uniqueOperators := operatorsUsed.dedup
  let operatorBonus := uniqueOperators.length * 5
  let divisionBonus :=
    if hasExactDivision && uniqueOperators.contains '/' then 10 else 0
  let rawDamage := BASE_DAMAGE + cardBonus + operatorBonus + divisionBonus
  if difference = 0 then
    let isMasterPlay := cardsUsed = 4 ∧ uniqueOperators.length ≥ 3
    { damage := ((rawDamage : ℚ) * 1).floor, rawDamage := rawDamage
      baseDamage := BASE_DAMAGE, cardBonus := cardBonus
      operatorBonus := operatorBonus, divisionBonus := divisionBonus
      accuracyMultiplier := 1, accuracyType := "perfect"
      isMasterPlay := decide isMasterPlay, miss := false }
  else if difference ≤ 5 then
    { damage := ((rawDamage : ℚ) * (3 / 4)).floor, rawDamage := rawDamage
      baseDamage := BASE_DAMAGE, cardBonus := cardBonus
      operatorBonus := operatorBonus, divisionBonus := divisionBonus
      accuracyMultiplier := 3 / 4, accuracyType := "close"
      isMasterPlay := false, miss := false }
  else if difference ≤ 10 then
    { damage := ((rawDamage : ℚ) * (1 / 2)).floor, rawDamage := rawDamage
      baseDamage := BASE_DAMAGE, cardBonus := cardBonus
      operatorBonus := operatorBonus, divisionBonus := divisionBonus
      accuracyMultiplier := 1 / 2, accuracyType := "far"
      isMasterPlay := false, miss := false }
  else
    { damage := 0, rawDamage := 0, baseDamage := BASE_DAMAGE
      cardBonus := 0, operatorBonus := 0, divisionBonus := 0
      accuracyMultiplier := 0, accuracyType := "miss"
      isMasterPlay := false, miss := true }

/-!
### Arithmetic expression evaluation

`server/gameManager.js` evaluates submitted expression strings with the JS
`eval` after two regex passes: implicit multiplication is inserted around
variable symbols, and each bound variable is replaced by its parenthesized
value.  We embed this as an explicit tokenizer plus a shunting-yard evaluator
over the grammar of numerals, `+ - * /`, parentheses and unary minus, with
standard operator precedence.  Malformed input, stray identifiers (a JS
`ReferenceError`) and division by zero (a non-finite JS result) all yield
`none`, matching the `try/catch` plus `isNaN`/`isFinite` guards. -/

/-- Tokens of the arithmetic grammar. -/
inductive Tok
  | num (n : Nat)
  | op (c : Char)
  | lparen
  | rparen
deriving DecidableEq, Repr

/-- Push a pending numeral (if any) onto the reversed token accumulator. -/
def flushNum (cur : Option Nat) (acc : List Tok) : List Tok :=
  match cur with
  | some n => Tok.num n :: acc
  | none => acc

/-- Tokenizer worker: `cur` is the numeral being accumulated, `acc` the
reversed token list.  Any character outside the arithmetic grammar fails. -/
def tokenizeAux : List Char → Option Nat → List Tok → Option (List Tok)
  | [], cur, acc => some (flushNum cur acc).reverse
  | c :: rest, cur, acc =>
    if c.isDigit then
      tokenizeAux rest (some ((cur.getD 0) * 10 + (c.toNat - '0'.toNat))) acc
    else
      let acc := flushNum cur acc
      if c = ' ' then tokenizeAux rest none acc
      else if c = '+' ∨ c = '-' ∨ c = '*' ∨ c = '/' then
        tokenizeAux rest none (Tok.op c :: acc)
      else if c = '(' then tokenizeAux rest none (Tok.lparen :: acc)
      else if c = ')' then tokenizeAux rest none (Tok.rparen :: acc)
      else none

/-- Tokenize a character list. -/
def tokenize (s : List Char) : Option (List Tok) :=
  tokenizeAux s none []

/-- Operator precedence: `* /` over `+ -`; `neg` marks unary minus. -/
def opPrecedence : Char → Nat
  | '+' => 1
  | '-' => 1
  | '*' => 2
  | '/' => 2
  | 'n' => 3
  | _ => 0

/-- Apply a binary operator; division by zero is a failure (JS produces a
non-finite number there, which the caller maps to `null`). -/
def applyBinOp (c : Char) (a b : ℚ) : Option ℚ :=
  if c = '+' then some (a + b)
  else if c = '-' then some (a - b)
  else if c = '*' then some (a * b)
  else if c = '/' then if b = 0 then none else some (a / b)
  else none

/-- Pop one operator from the stack and apply it to the value stack
(`n` is unary negation). -/
def popApply (c : Char) (st : List ℚ) : Option (List ℚ) :=
  if c = 'n' then
    match st with
    | b :: rest => some ((-b) :: rest)
    | [] => none
  else
    match st with
    | b :: a :: rest => (applyBinOp c a b).map (· :: rest)
    | _ => none

/-- Pop-and-apply operators of precedence at least `p` (left associativity),
stopping at an opening parenthesis. -/
def popWhileGE (p : Nat) : List Char → List ℚ → Option (List Char × List ℚ)
  | [], st => some ([], st)
  | o :: ops, st =>
    if o = '(' then some (o :: ops, st)
    else if opPrecedence o ≥ p then
      match popApply o st with
      | some st' => popWhileGE p ops st'
      | none => none
    else some (o :: ops, st)

/-- Pop-and-apply operators until the matching opening parenthesis. -/
def popUntilLParen : List Char → List ℚ → Option (List Char × List ℚ)
  | [], _ => none
  | o :: ops, st =>
    if o = '(' then some (ops, st)
    else
      match popApply o st with
      | some st' => popUntilLParen ops st'
      | none => none

/-- Apply all remaining operators at the end of the input. -/
def popAll : List Char → List ℚ → Option (List ℚ)
  | [], st => some st
  | o :: ops, st =>
    if o = '(' then none
    else
      match popApply o st with
      | some st' => popAll ops st'
      | none => none

/-- Shunting-yard evaluation with standard precedence.  `expectOperand`
tracks whether the next token must start an operand, which is also where
unary `+`/`-` are accepted (as JS does). -/
def shuntEval : List Tok → List Char → List ℚ → Bool → Option ℚ
  | [], ops, st, expectOperand =>
    if expectOperand then none
    else
      match popAll ops st with
      | some [v] => some v
      | _ => none
  | t :: ts, ops, st, expectOperand =>
    match t with
    | .num n =>
      if expectOperand then shuntEval ts ops ((n : ℚ) :: st) false else none
    | .lparen =>
      if expectOperand then shuntEval ts ('(' :: ops) st true else none
    | .rparen =>
      if expectOperand then none
      else
        match popUntilLParen ops st with
        | some (ops', st') => shuntEval ts ops' st' false
        | none => none
    | .op c =>
      if expectOperand then
        if c = '-' then shuntEval ts ('n' :: ops) st true
        else if c = '+' then shuntEval ts ops st true
        else none
      else
        match popWhileGE (opPrecedence c) ops st with
        | some (ops', st') => shuntEval ts (c :: ops') st' true
        | none => none

/-- The four implicit-multiplication adjacency rules of `evaluateExpression`:
digit–variable, `)`–variable, variable–`(`, variable–digit. -/
def needsStar (c1 c2 : Char) : Bool :=
  (c1.isDigit && (c2 = 'x' || c2 = 'y')) ||
  (c1 = ')' && (c2 = 'x' || c2 = 'y')) ||
  ((c1 = 'x' || c1 = 'y') && c2 = '(') ||
  ((c1 = 'x' || c1 = 'y') && c2.isDigit)

/-- Insert the implicit `*` demanded by the regex passes of
`evaluateExpression` (e.g. `3x` becomes `3*x`, `(2+1)x` becomes `(2+1)*x`). -/
def insertImplicitMult : List Char → List Char
  | [] => []
  | c1 :: rest =>
    match rest with
    | [] => [c1]
    | c2 :: _ =>
      (if needsStar c1 c2 then [c1, '*'] else [c1]) ++ insertImplicitMult rest

/-- Replace every occurrence of each bound variable symbol by its
parenthesized value, as the substitution loop of `evaluateExpression` does
(`x` with value 4 becomes `(4)`). -/
def substVars (variableValues : List (Char × Int)) (l : List Char) :
    List Char :=
  variableValues.foldl
    (fun acc p =>
      acc.flatMap (fun c =>
        if c = p.1 then '(' :: (toString p.2).toList ++ [')'] else [c]))
    l

/-- `evaluateExpression` from `server/gameManager.js`: empty / blank input is
`null`; otherwise insert implicit multiplication, substitute the bound
variables, and evaluate the resulting pure-arithmetic string. -/
def evaluateExpression (expression : String)
    (variableValues : List (Char × Int)) : Option ℚ :=
  -- `!expression || expression.trim() === ''`: the string is empty or blank.
  if expression.toList.all (fun c => c.isWhitespace) then none
  else
    let chars := insertImplicitMult expression.toList
    let substituted := substVars variableValues chars
    match tokenize substituted with
    | none => none
    | some toks => shuntEval toks [] [] true

/-!
### Combinatorial search engine

`generateTargetByDifficulty` and `findSolution` in `gameLogic.js` share one
recursive scheme: repeatedly pick an ordered pair of the current atoms,
combine it under each allowed operator (`+ -` always, `* /` except on easy,
division only when the divisor is nonzero and divides exactly), and recurse
on the shrunken multiset.  Every recursive call operates on a list one
element shorter, so a fuel argument equal to the initial list length makes
the embedded functions total while never cutting off a call the JS code
makes. -/

/-- All ordered index pairs `(i, j)` with `i ≠ j` below `n`, in the nested
loop order of the source. -/
def indexPairs (n : Nat) : List (Nat × Nat) :=
  (List.range n).flatMap fun i =>
    (List.range n).filterMap fun j => if i = j then none else some (i, j)

/-- `currentNumbers.filter((_, idx) => idx !== i && idx !== j)`. -/
def removeTwo {α : Type} (l : List α) (i j : Nat) : List α :=
  (l.enum.filter (fun p => p.1 ≠ i ∧ p.1 ≠ j)).map Prod.snd

/-- The recursive `explore` helper of `generateTargetByDifficulty`: collect
the absolute value of every atom, then for every ordered pair and every
allowed operation recurse with the combined value replacing the pair.  All
values stay integral because division is only taken when exact.  JS `%` and
Lean `%` agree on the `= 0` test (both mean divisibility), and the exact
quotients agree as well. -/
def exploreResults (d : Difficulty) : Nat → List Int → List Int
  | 0, _ => []
  | fuel + 1, nums =>
    let atoms := nums.map (fun n => |n|)
    if nums.length = 1 then atoms
    else
      atoms ++
        (indexPairs nums.length).flatMap fun ij =>
          let a := (nums.get? ij.1).getD 0
          let b := (nums.get? ij.2).getD 0
          let remaining := removeTwo nums ij.1 ij.2
          let nextSteps :=
            [a + b, a - b] ++
              (if d ≠ .easy then
                [a * b] ++ (if b ≠ 0 ∧ a % b = 0 then [a / b] else [])
              else [])
          nextSteps.flatMap fun res => exploreResults d fuel (res :: remaining)

/-- The set of results the exploration of `generateTargetByDifficulty`
records for a list of numbers: the repository's own notion of the reachable
set of a card/variable multiset under the profile's operator set. -/
def reachableResults (d : Difficulty) (nums : List Int) : List Int :=
  exploreResults d nums.length nums

/-- A search node of `findSolution`: a value, its rendered expression string
and its operator-precedence class (3 = atom, 2 = `* /`, 1 = `+ -`). -/
structure ExprItem where
  value : Int
  expr : String
  precedence : Nat
deriving DecidableEq, Repr

/-- The `wrap` helper of `findSolution`: parenthesize an operand whose
precedence class is (truthy and) strictly below the operator's. -/
def wrapExpr (item : ExprItem) (myPrec : Nat) : String :=
  if item.precedence ≠ 0 ∧ item.precedence < myPrec then
    "(" ++ item.expr ++ ")"
  else item.expr

/-- The recursive `explore` helper of `findSolution`: return the first atom
whose value matches the target within epsilon `0.0001`, otherwise combine
pairs in deterministic order (`+`, `-`, then `*` and exact `/` except on
easy) and recurse depth-first, stopping at the first hit. -/
def exploreSolution (d : Difficulty) (target : Int) :
    Nat → List ExprItem → Option String
  | 0, _ => none
  | fuel + 1, items =>
    match items.find?
        (fun it => |((it.value - target : Int) : ℚ)| < 1 / 10000) with
    | some it => some it.expr
    | none =>
      if items.length = 1 then none
      else
        (indexPairs items.length).findSome? fun ij =>
          let a := (items.get? ij.1).getD ⟨0, "", 0⟩
          let b := (items.get? ij.2).getD ⟨0, "", 0⟩
          let remaining := removeTwo items ij.1 ij.2
          let ops : List ExprItem :=
            [ ⟨a.value + b.value, a.expr ++ " + " ++ b.expr, 1⟩,
              ⟨a.value - b.value, a.expr ++ " - " ++ wrapExpr b 2, 1⟩ ] ++
              (if d ≠ .easy then
                [⟨a.value * b.value,
                  wrapExpr a 2 ++ " * " ++ wrapExpr b 2, 2⟩] ++
                  (if b.value ≠ 0 ∧ a.value % b.value = 0 then
                    [⟨a.value / b.value,
                      wrapExpr a 2 ++ " / " ++ wrapExpr b 2, 2⟩]
                  else [])
              else [])
          ops.findSome? fun op => exploreSolution d target fuel (op :: remaining)

/-- `findSolution` from `gameLogic.js`: search for an expression over the
cards (and bound variables, which enter as atoms rendered by their symbol)
that reaches the target, returning the not-found sentinel otherwise. -/
def findSolution (target : Int) (cards : List Int) (d : Difficulty)
    (variableValues : List (String × Int)) : String :=
  let initialItems :=
    cards.map (fun c => ExprItem.mk c (toString c) 3) ++
      variableValues.map (fun p => ExprItem.mk p.2 p.1 3)
  (exploreSolution d target initialItems.length initialItems).getD
    "Sin solución encontrada??"

/-- The record returned by the server's `calculateDamage`. -/
structure DamageInfo where
  damage : Nat
  type : String
  isMiss : Bool
deriving DecidableEq, Repr

/-- `calculateDamage` from `server/gameManager.js`: classify the distance to
the target against the profile's `accuracyThresholds` and map the tier to a
fixed base damage.  A `null` result is an immediate miss. -/
def calculateDamage (result : Option ℚ) (target : Int) (d : Difficulty) :
    DamageInfo :=
  match result with
  | none => ⟨0, "miss", true⟩
  | some r =>
    let th := (serverConfig d).accuracyThresholds
    let difference := |r - (target : ℚ)|
    if difference = (th.perfect : ℚ) then ⟨50, "perfect", false⟩
    else if difference ≤ (th.excellent : ℚ) then ⟨40, "excellent", false⟩
    else if difference ≤ (th.good : ℚ) then ⟨30, "good", false⟩
    else if difference ≤ (th.ok : ℚ) then ⟨20, "ok", false⟩
    else if difference < (th.missAt : ℚ) then ⟨10, "close", false⟩
    else ⟨0, "miss", true⟩

/-!
### Match coordinator (`server/gameManager.js`)

One game session is the value found under the room code in the `games` map;
we model a room's slot as an `Option SGame` and every mutation as explicit
state passing.  The `Math.random`-driven choices of `generateTarget` (the
shuffle of the cards and the sampled signs and variable multiplier) become
explicit parameters. -/

/-- The `status` field of a game session. -/
inductive GStatus
  | playing
  | revealing
  | waiting_next
  | finished
deriving DecidableEq, Repr

/-- A `PlayerState` of `server/gameManager.js`. -/
structure SPlayer where
  id : String
  name : String
  hp : Int
  maxHp : Int
  cards : List Int
  expression : String
  submitted : Bool
  result : Option ℚ
deriving DecidableEq, Repr

/-- A `GameState` of `server/gameManager.js` (the per-room value of the
`games` map).  Variables are kept as symbol/value pairs. -/
structure SGame where
  roomCode : String
  difficulty : Difficulty
  target : Int
  variableValues : List (Char × Int)
  player1 : SPlayer
  player2 : SPlayer
  round : Nat
  status : GStatus
deriving DecidableEq, Repr

/-- `generateTarget` from `server/gameManager.js`.  `shuffled` is the order
produced by the random sort of the cards, `signs` the outcomes of the
per-card `Math.random() > 0.3` draws (`true` meaning `+1`), `varSingle` the
outcome of the `Math.random() > 0.5` draw for the variable term.  The
function sums the first `min 3 |cards|` shuffled cards with the sampled
signs, adds `x · 1` or `x · 2` when a (truthy) `x` value exists, and clamps
the absolute value into the profile's target range. -/
def generateTarget (d : Difficulty) (cards : List Int)
    (variableValueX : Option Int) (shuffled : List Int) (signs : List Bool)
    (varSingle : Bool) : Int :=
  let config := serverConfig d
  let numCardsToUse := min 3 cards.length
  let base :=
    (List.range numCardsToUse).foldl
      (fun t i =>
        t + ((shuffled.get? i).getD 0) *
          (if (signs.get? i).getD true then 1 else -1))
      0
  let withVar :=
    match variableValueX with
    | some v => if v ≠ 0 then base + v * (if varSingle then 1 else 2) else base
    | none => base
  max config.targetRange.lo (min config.targetRange.hi |withVar|)

/-- The `{ success, error }` record returned by submission handlers. -/
structure SubmitResult where
  success : Bool
  error : Option String
deriving DecidableEq, Repr

/-- `submitPlayerExpression` from `server/gameManager.js`: reject when the
game is missing, when it is not in the `playing` state, or when the player
already submitted; otherwise store the expression, mark the player as
submitted, and store the evaluated result. -/
def submitPlayerExpression (game? : Option SGame) (playerId : String)
    (expression : String) : SubmitResult × Option SGame :=
  match game? with
  | none => (⟨false, some "Juego no encontrado"⟩, none)
  | some game =>
    if game.status ≠ .playing then
      (⟨false, some "No es momento de enviar expresiones"⟩, some game)
    else
      let isPlayer1 := game.player1.id = playerId
      let player := if isPlayer1 then game.player1 else game.player2
      if player.submitted then
        (⟨false, some "Ya enviaste tu expresión"⟩, some game)
      else
        let player' :=
          { player with
            expression := expression
            submitted := true
            result := evaluateExpression expression game.variableValues }
        let game' :=
          if isPlayer1 then { game with player1 := player' }
          else { game with player2 := player' }
        (⟨true, none⟩, some game')

/-- `skipPlayerTurn` from `server/gameManager.js`. -/
def skipPlayerTurn (game? : Option SGame) (playerId : String) :
    SubmitResult × Option SGame :=
  submitPlayerExpression game? playerId ""

/-- `checkBothPlayersReady` from `server/gameManager.js`. -/
def checkBothPlayersReady (game? : Option SGame) : Bool :=
  match game? with
  | none => false
  | some game => game.player1.submitted && game.player2.submitted

/-- The distance of a player's stored result to the target; `none` models the
JS `Infinity` of a `null` result. -/
def distanceToTarget (result : Option ℚ) (target : Int) : Option ℚ :=
  result.map fun r => |r - (target : ℚ)|

/-- The `<` comparison on distances with `none` as `Infinity`. -/
def distLt : Option ℚ → Option ℚ → Bool
  | some a, some b => a < b
  | some _, none => true
  | none, _ => false

/-- The per-player part of a `resolveRound` payload. -/
structure RoundPlayerReport where
  name : String
  expression : String
  result : Option ℚ
  difference : Option ℚ
  damageType : String
  damageTaken : Nat
  currentHp : Int
deriving DecidableEq, Repr

/-- The round-result payload of `resolveRound` (UI-only `finalStats`
omitted). -/
structure RoundResult where
  round : Nat
  target : Int
  player1 : RoundPlayerReport
  player2 : RoundPlayerReport
  roundWinner : String
  gameOver : Bool
  winner : Option String
deriving DecidableEq, Repr

/-- The winner selection of `resolveRound`: the round winner label together
with the damage taken by player 1 and by player 2.  Both players missing is a
no-damage draw; otherwise the strictly closer player wins and the other takes
the winner's damage; an exact distance tie deals each player half of the
other's damage, rounded down (`Math.floor(d * 0.5)`). -/
def roundOutcome (game : SGame) : String × Nat × Nat :=
  let p1Damage := calculateDamage game.player1.result game.target game.difficulty
  let p2Damage := calculateDamage game.player2.result game.target game.difficulty
  let p1Diff := distanceToTarget game.player1.result game.target
  let p2Diff := distanceToTarget game.player2.result game.target
  if p1Damage.isMiss && p2Damage.isMiss then ("draw_miss", 0, 0)
  else if distLt p1Diff p2Diff then (game.player1.name, 0, p1Damage.damage)
  else if distLt p2Diff p1Diff then (game.player2.name, p2Damage.damage, 0)
  else ("draw", p2Damage.damage / 2, p1Damage.damage / 2)

/-- Player 1's health after the round's damage, clamped at zero
(`Math.max(0, hp - damageTaken)`). -/
def resolvedHp1 (game : SGame) : Int :=
  max 0 (game.player1.hp - (roundOutcome game).2.1)

/-- Player 2's health after the round's damage, clamped at zero. -/
def resolvedHp2 (game : SGame) : Int :=
  max 0 (game.player2.hp - (roundOutcome game).2.2)

/-- The game-over detection of `resolveRound`: both players at zero is a
final draw, one player at zero makes the other the match winner. -/
def matchVerdict (game : SGame) : Bool × Option String :=
  if resolvedHp1 game ≤ 0 && resolvedHp2 game ≤ 0 then (true, some "draw")
  else if resolvedHp1 game ≤ 0 then (true, some game.player2.name)
  else if resolvedHp2 game ≤ 0 then (true, some game.player1.name)
  else (false, none)

/-- The body of `resolveRound` for an existing game: classify both stored
results, pick the round winner by distance, clamp health at zero, detect game
over, and either clear the submission state (`waiting_next`) or freeze the
session (`finished`). -/
def resolveRoundG (game : SGame) : RoundResult × SGame :=
  let p1Damage := calculateDamage game.player1.result game.target game.difficulty
  let p2Damage := calculateDamage game.player2.result game.target game.difficulty
  let result : RoundResult :=
    { round := game.round
      target := game.target
      player1 :=
        { name := game.player1.name
          expression :=
            if game.player1.expression = "" then "(sin respuesta)"
            else game.player1.expression
          result := game.player1.result
          difference := distanceToTarget game.player1.result game.target
          damageType := p1Damage.type
          damageTaken := (roundOutcome game).2.1
          currentHp := resolvedHp1 game }
      player2 :=
        { name := game.player2.name
          expression :=
            if game.player2.expression = "" then "(sin respuesta)"
            else game.player2.expression
          result := game.player2.result
          difference := distanceToTarget game.player2.result game.target
          damageType := p2Damage.type
          damageTaken := (roundOutcome game).2.2
          currentHp := resolvedHp2 game }
      roundWinner := (roundOutcome game).1
      gameOver := (matchVerdict game).1
      winner := (matchVerdict game).2 }
  let game' :=
    if (matchVerdict game).1 then
      { game with
        status := .finished
        player1.hp := resolvedHp1 game
        player2.hp := resolvedHp2 game }
    else
      { game with
        status := .waiting_next
        player1 :=
          { game.player1 with
            hp := resolvedHp1 game, expression := "", submitted := false
            result := none }
        player2 :=
          { game.player2 with
            hp := resolvedHp2 game, expression := "", submitted := false
            result := none } }
  (result, game')

/-- `resolveRound` from `server/gameManager.js`: `null` for a missing game,
otherwise resolve.  Note that no check of the game's status is performed. -/
def resolveRound (game? : Option SGame) :
    Option RoundResult × Option SGame :=
  match game? with
  | none => (none, none)
  | some game =>
    let rg := resolveRoundG game
    (some rg.1, some rg.2)

/-!
### Concrete fixtures

Small concrete sessions used to instantiate the theorems below. -/

/-- A concrete player record. -/
def fixturePlayer (id name : String) (hp : Int) (expression : String)
    (submitted : Bool) (result : Option ℚ) : SPlayer :=
  { id := id, name := name, hp := hp, maxHp := 150, cards := [4, 6, 10]
    expression := expression, submitted := submitted, result := result }

/-- An easy-mode session in which both players scored an exact tie, the host
having only 25 hp left: the tie damage finishes player 1. -/
def tieGame : SGame :=
  { roomCode := "AB12", difficulty := .easy, target := 10, variableValues := []
    player1 := fixturePlayer "s1" "Alice" 25 "4+6" true (some 10)
    player2 := fixturePlayer "s2" "Bob" 150 "10" true (some 10)
    round := 1, status := .playing }

/-- An easy-mode session in which player 1 hit the target exactly and player 2
submitted nothing (result `null`). -/
def missGame : SGame :=
  { roomCode := "AB12", difficulty := .easy, target := 10, variableValues := []
    player1 := fixturePlayer "s1" "Alice" 150 "4+6" true (some 10)
    player2 := fixturePlayer "s2" "Bob" 150 "" true none
    round := 1, status := .playing }

/-- An easy-mode session awaiting both submissions. -/
def freshGame : SGame :=
  { roomCode := "AB12", difficulty := .easy, target := 10, variableValues := []
    player1 := fixturePlayer "s1" "Alice" 150 "" false none
    player2 := fixturePlayer "s2" "Bob" 150 "" false none
    round := 1, status := .playing }

/-- An easy-mode session in which the round's tie damage reduces both players
to exactly zero health. -/
def doubleKoGame : SGame :=
  { roomCode := "AB12", difficulty := .easy, target := 10, variableValues := []
    player1 := fixturePlayer "s1" "Alice" 25 "4+6" true (some 10)
    player2 := fixturePlayer "s2" "Bob" 25 "10" true (some 10)
    round := 1, status := .playing }

end AlgebraPvp

namespace AlgebraPvp

/-- C3: the round winner and damage rules of `resolveRound`.  If both players
are classified as miss the round is a no-damage draw; otherwise the player
with strictly smaller distance wins and only the other player takes the
winner's computed damage; on an exact distance tie each player takes half of
the other's damage rounded down; a `null` result is classified as a miss with
zero damage, and a valid non-miss opponent of a `null` result wins the round
and deals their full computed damage. -/
theorem resolveRound_winner_and_damage (g : SGame) :
    ((calculateDamage g.player1.result g.target g.difficulty).isMiss = true →
      (calculateDamage g.player2.result g.target g.difficulty).isMiss = true →
        (resolveRoundG g).1.roundWinner = "draw_miss"
        ∧ (resolveRoundG g).1.player1.damageTaken = 0
        ∧ (resolveRoundG g).1.player2.damageTaken = 0
        ∧ (0 ≤ g.player1.hp → ((resolveRoundG g).2).player1.hp = g.player1.hp)
        ∧ (0 ≤ g.player2.hp → ((resolveRoundG g).2).player2.hp = g.player2.hp))
    ∧ (¬((calculateDamage g.player1.result g.target g.difficulty).isMiss = true
          ∧ (calculateDamage g.player2.result g.target g.difficulty).isMiss = true) →
        distLt (distanceToTarget g.player1.result g.target)
            (distanceToTarget g.player2.result g.target) = true →
          (resolveRoundG g).1.roundWinner = g.player1.name
          ∧ (resolveRoundG g).1.player1.damageTaken = 0
          ∧ (resolveRoundG g).1.player2.damageTaken
              = (calculateDamage g.player1.result g.target g.difficulty).damage)
    ∧ (¬((calculateDamage g.player1.result g.target g.difficulty).isMiss = true
          ∧ (calculateDamage g.player2.result g.target g.difficulty).isMiss = true) →
        distLt (distanceToTarget g.player2.result g.target)
            (distanceToTarget g.player1.result g.target) = true →
          (resolveRoundG g).1.roundWinner = g.player2.name
          ∧ (resolveRoundG g).1.player1.damageTaken
              = (calculateDamage g.player2.result g.target g.difficulty).damage
          ∧ (resolveRoundG g).1.player2.damageTaken = 0)
    ∧ (¬((calculateDamage g.player1.result g.target g.difficulty).isMiss = true
          ∧ (calculateDamage g.player2.result g.target g.difficulty).isMiss = true) →
        distLt (distanceToTarget g.player1.result g.target)
            (distanceToTarget g.player2.result g.target) = false →
        distLt (distanceToTarget g.player2.result g.target)
            (distanceToTarget g.player1.result g.target) = false →
          (resolveRoundG g).1.roundWinner = "draw"
          ∧ (resolveRoundG g).1.player1.damageTaken
              = (calculateDamage g.player2.result g.target g.difficulty).damage / 2
          ∧ (resolveRoundG g).1.player2.damageTaken
              = (calculateDamage g.player1.result g.target g.difficulty).damage / 2)
    ∧ (g.player1.result = none →
        (calculateDamage g.player1.result g.target g.difficulty).isMiss = true
        ∧ (calculateDamage g.player1.result g.target g.difficulty).damage = 0)
    ∧ (g.player1.result = none →
        (calculateDamage g.player2.result g.target g.difficulty).isMiss = false →
          (resolveRoundG g).1.roundWinner = g.player2.name
          ∧ (resolveRoundG g).1.player1.damageTaken
              = (calculateDamage g.player2.result g.target g.difficulty).damage
          ∧ (resolveRoundG g).1.player2.damageTaken = 0)
    ∧ (g.player2.result = none →
        (calculateDamage g.player2.result g.target g.difficulty).isMiss = true
        ∧ (calculateDamage g.player2.result g.target g.difficulty).damage = 0)
    ∧ (g.player2.result = none →
        (calculateDamage g.player1.result g.target g.difficulty).isMiss = false →
          (resolveRoundG g).1.roundWinner = g.player1.name
          ∧ (resolveRoundG g).1.player1.damageTaken = 0
          ∧ (resolveRoundG g).1.player2.damageTaken
              = (calculateDamage g.player1.result g.target g.difficulty).damage) := by
  have hw : (resolveRoundG g).1.roundWinner = (roundOutcome g).1 := rfl
  have ht1 : (resolveRoundG g).1.player1.damageTaken = (roundOutcome g).2.1 := rfl
  have ht2 : (resolveRoundG g).1.player2.damageTaken = (roundOutcome g).2.2 := rfl
  have hhp1 : ((resolveRoundG g).2).player1.hp = resolvedHp1 g := by
    simp only [resolveRoundG]
    split <;> rfl
  have hhp2 : ((resolveRoundG g).2).player2.hp = resolvedHp2 g := by
    simp only [resolveRoundG]
    split <;> rfl
  rw [hw, ht1, ht2, hhp1, hhp2]
  refine ⟨?_, ?_, ?_, ?_, ?_, ?_, ?_, ?_⟩
  · intro m1 m2
    have hro : roundOutcome g = ("draw_miss", 0, 0) := by
      unfold roundOutcome
      simp [m1, m2]
    refine ⟨by simp [hro], by simp [hro], by simp [hro], ?_, ?_⟩
    · intro h
      simp [resolvedHp1, hro]
      omega
    · intro h
      simp [resolvedHp2, hro]
      omega
  · intro hnm hlt
    have hro : roundOutcome g
        = (g.player1.name, 0,
           (calculateDamage g.player1.result g.target g.difficulty).damage) := by
      unfold roundOutcome
      rw [if_neg (by simp_all [Bool.and_eq_true]), if_pos hlt]
    simp [hro]
  · intro hnm hlt
    have hlt' : distLt (distanceToTarget g.player1.result g.target)
        (distanceToTarget g.player2.result g.target) = false := by
      cases hx1 : distanceToTarget g.player1.result g.target <;>
        cases hx2 : distanceToTarget g.player2.result g.target <;>
          simp_all [distLt] <;> linarith
    have hro : roundOutcome g
        = (g.player2.name,
           (calculateDamage g.player2.result g.target g.difficulty).damage, 0) := by
      unfold roundOutcome
      rw [if_neg (by simp_all [Bool.and_eq_true]), if_neg (by simp_all),
        if_pos hlt]
    simp [hro]
  · intro hnm hf1 hf2
    have hro : roundOutcome g
        = ("draw",
           (calculateDamage g.player2.result g.target g.difficulty).damage / 2,
           (calculateDamage g.player1.result g.target g.difficulty).damage / 2) := by
      unfold roundOutcome
      rw [if_neg (by simp_all [Bool.and_eq_true]), if_neg (by simp_all),
        if_neg (by simp_all)]
    simp [hro]
  · intro hn
    rw [hn]
    exact ⟨rfl, rfl⟩
  · intro hn hm2
    obtain ⟨r2, hr2⟩ : ∃ r, g.player2.result = some r := by
      cases hx : g.player2.result with
      | none => rw [hx] at hm2; simp [calculateDamage] at hm2
      | some r => exact ⟨r, rfl⟩
    have hlt : distLt (distanceToTarget g.player2.result g.target)
        (distanceToTarget g.player1.result g.target) = true := by
      simp [distanceToTarget, hn, hr2, distLt]
    have hro : roundOutcome g
        = (g.player2.name,
           (calculateDamage g.player2.result g.target g.difficulty).damage, 0) := by
      unfold roundOutcome
      rw [if_neg (by simp_all [Bool.and_eq_true]),
        if_neg (by simp [distanceToTarget, hn, distLt]), if_pos hlt]
    simp [hro]
  · intro hn
    rw [hn]
    exact ⟨rfl, rfl⟩
  · intro hn hm1
    obtain ⟨r1, hr1⟩ : ∃ r, g.player1.result = some r := by
      cases hx : g.player1.result with
      | none => rw [hx] at hm1; simp [calculateDamage] at hm1
      | some r => exact ⟨r, rfl⟩
    have hlt : distLt (distanceToTarget g.player1.result g.target)
        (distanceToTarget g.player2.result g.target) = true := by
      simp [distanceToTarget, hn, hr1, distLt]
    have hro : roundOutcome g
        = (g.player1.name, 0,
           (calculateDamage g.player1.result g.target g.difficulty).damage) := by
      unfold roundOutcome
      rw [if_neg (by simp_all [Bool.and_eq_true]), if_pos hlt]
    simp [hro]

/-- C6: `submitPlayerExpression` rejects a missing session, a session that is
not in the `playing` state, and a player who already submitted this round; a
rejected submission returns the state unchanged, and after a successful
submission a second submission by the same player is rejected without
touching the stored expression or result. -/
theorem submitPlayerExpression_rejects_and_preserves (g : SGame)
    (pid e e2 : String) :
    submitPlayerExpression none pid e
        = (⟨false, some "Juego no encontrado"⟩, none)
    ∧ (g.status ≠ .playing →
        submitPlayerExpression (some g) pid e
          = (⟨false, some "No es momento de enviar expresiones"⟩, some g))
    ∧ ((if g.player1.id = pid then g.player1 else g.player2).submitted = true →
        g.status = .playing →
        submitPlayerExpression (some g) pid e
          = (⟨false, some "Ya enviaste tu expresión"⟩, some g))
    ∧ ((submitPlayerExpression (some g) pid e).1.success = true →
        (submitPlayerExpression (some g) pid e).2.map
            (fun s => (if g.player1.id = pid then s.player1 else s.player2).expression)
          = some e
        ∧ submitPlayerExpression ((submitPlayerExpression (some g) pid e).2) pid e2
            = (⟨false, some "Ya enviaste tu expresión"⟩,
               (submitPlayerExpression (some g) pid e).2)) := by
  refine ⟨rfl, ?_, ?_, ?_⟩
  · intro hst
    simp [submitPlayerExpression, hst]
  · intro hsub hst
    by_cases hpid : g.player1.id = pid
    · simp_all [submitPlayerExpression]
    · simp_all [submitPlayerExpression]
  · intro hsucc
    by_cases hst : g.status = .playing
    · by_cases hpid : g.player1.id = pid
      · by_cases hsub : (g.player1).submitted
        · simp_all [submitPlayerExpression]
        · simp_all [submitPlayerExpression]
      · by_cases hsub : (g.player2).submitted
        · simp_all [submitPlayerExpression]
        · simp_all [submitPlayerExpression]
    · simp_all [submitPlayerExpression]

/-- C7: `resolveRound` clamps both health totals at zero; the match ends
exactly when a player's health reaches zero, with the surviving player
declared winner when exactly one is at zero and a draw when both reach zero
in the same round. -/
theorem resolveRound_health_and_termination (g : SGame) :
    0 ≤ ((resolveRoundG g).2).player1.hp
    ∧ 0 ≤ ((resolveRoundG g).2).player2.hp
    ∧ ((resolveRoundG g).1.gameOver = true ↔
        ((resolveRoundG g).2).player1.hp = 0 ∨ ((resolveRoundG g).2).player2.hp = 0)
    ∧ (((resolveRoundG g).2).player1.hp = 0 → ((resolveRoundG g).2).player2.hp ≠ 0 →
        (resolveRoundG g).1.gameOver = true
        ∧ (resolveRoundG g).1.winner = some g.player2.name
        ∧ ((resolveRoundG g).2).status = .finished)
    ∧ (((resolveRoundG g).2).player2.hp = 0 → ((resolveRoundG g).2).player1.hp ≠ 0 →
        (resolveRoundG g).1.gameOver = true
        ∧ (resolveRoundG g).1.winner = some g.player1.name
        ∧ ((resolveRoundG g).2).status = .finished)
    ∧ (((resolveRoundG g).2).player1.hp = 0 → ((resolveRoundG g).2).player2.hp = 0 →
        (resolveRoundG g).1.gameOver = true
        ∧ (resolveRoundG g).1.winner = some "draw"
        ∧ ((resolveRoundG g).2).status = .finished) := by
  have hhp1 : ((resolveRoundG g).2).player1.hp = resolvedHp1 g := by
    simp only [resolveRoundG]
    split <;> rfl
  have hhp2 : ((resolveRoundG g).2).player2.hp = resolvedHp2 g := by
    simp only [resolveRoundG]
    split <;> rfl
  have hstat : ((resolveRoundG g).2).status
      = (if (matchVerdict g).1 then GStatus.finished else GStatus.waiting_next) := by
    simp only [resolveRoundG]
    split <;> simp_all
  have hgo : (resolveRoundG g).1.gameOver = (matchVerdict g).1 := rfl
  have hwin : (resolveRoundG g).1.winner = (matchVerdict g).2 := rfl
  have h1 : 0 ≤ resolvedHp1 g := le_max_left 0 _
  have h2 : 0 ≤ resolvedHp2 g := le_max_left 0 _
  rw [hhp1, hhp2, hgo, hwin, hstat]
  unfold matchVerdict
  split_ifs with hc1 hc2 hc3 <;> simp_all <;> omega

/-- C9: submissions by the two players of a round commute: submitting player
1's expression and then player 2's leads to the same session state, and hence
the same `resolveRound` outcome, as the opposite order. -/
theorem submission_order_commutes (g : SGame) (eA eB : String)
    (h : g.player1.id ≠ g.player2.id) :
    (submitPlayerExpression
        ((submitPlayerExpression (some g) g.player1.id eA).2) g.player2.id eB).2
      = (submitPlayerExpression
          ((submitPlayerExpression (some g) g.player2.id eB).2) g.player1.id eA).2
    ∧ resolveRound
        (submitPlayerExpression
          ((submitPlayerExpression (some g) g.player1.id eA).2) g.player2.id eB).2
      = resolveRound
          (submitPlayerExpression
            ((submitPlayerExpression (some g) g.player2.id eB).2) g.player1.id eA).2 := by
  have key : (submitPlayerExpression
        ((submitPlayerExpression (some g) g.player1.id eA).2) g.player2.id eB).2
      = (submitPlayerExpression
          ((submitPlayerExpression (some g) g.player2.id eB).2) g.player1.id eA).2 := by
    by_cases hst : g.status = .playing
    · by_cases h1 : g.player1.submitted <;> by_cases h2 : g.player2.submitted <;>
        simp_all [submitPlayerExpression, h.symm]
    · simp_all [submitPlayerExpression]
  exact ⟨key, by rw [key]⟩

/-- C10: `skipPlayerTurn` is definitionally `submitPlayerExpression` with the
empty expression; the empty expression evaluates to `null`, so a successful
skip stores an empty expression, the submitted flag and a `null` result, and
a `null` result is scored as a miss by `calculateDamage`. -/
theorem skipPlayerTurn_refines_empty_submission (game? : Option SGame)
    (pid : String) :
    skipPlayerTurn game? pid = submitPlayerExpression game? pid ""
    ∧ (∀ vars, evaluateExpression "" vars = none)
    ∧ (∀ g : SGame, g.status = .playing →
        (if g.player1.id = pid then g.player1 else g.player2).submitted = false →
        (skipPlayerTurn (some g) pid).1.success = true
        ∧ (skipPlayerTurn (some g) pid).2.map
            (fun s => if g.player1.id = pid then s.player1 else s.player2)
          = some { (if g.player1.id = pid then g.player1 else g.player2) with
                   expression := "", submitted := true, result := none })
    ∧ (∀ t d, calculateDamage none t d = ⟨0, "miss", true⟩) := by
  refine ⟨rfl, fun vars => rfl, ?_, fun t d => rfl⟩
  intro g hst hsub
  by_cases hpid : g.player1.id = pid
  · simp [skipPlayerTurn, submitPlayerExpression, hst, hpid, hsub] at hsub ⊢
    simp_all [evaluateExpression]
  · simp [skipPlayerTurn, submitPlayerExpression, hst, hpid, hsub] at hsub ⊢
    simp_all [evaluateExpression]

set_option maxRecDepth 8000 in
/-- C1: the server's `generateTarget` can emit a target that is unreachable
from the round's shared cards under the profile's operator set even though
reachable values lie inside the target range, so the fallback exception of
the claim does not apply.  With easy cards `[9,1,1,1]`, shuffle order
`[1,1,1,9]` and all signs positive the code emits `5`, which is unreachable
under `{+,-}`, while the reachable value `6` lies inside the range `[5,30]`. -/
theorem generateTarget_emits_unreachable_target :
    generateTarget .easy [9, 1, 1, 1] none [1, 1, 1, 9] [true, true, true]
        false = 5
    ∧ List.Perm [1, 1, 1, 9] ([9, 1, 1, 1] : List Int)
    ∧ (5 : Int) ∉ reachableResults .easy [9, 1, 1, 1]
    ∧ (6 : Int) ∈ reachableResults .easy [9, 1, 1, 1]
    ∧ (serverConfig .easy).targetRange.lo ≤ 6
    ∧ (6 : Int) ≤ (serverConfig .easy).targetRange.hi := by
  refine ⟨by decide, by decide, by decide, by decide, by decide, by decide⟩

/-- C2: `findSolution` can return a non-sentinel expression string whose
evaluation under standard operator precedence differs from the requested
target, because the right operand of a division is not parenthesized when it
is a composite product: for the reachable target `2` over cards `[4,5,40]`
it returns `"40 / 4 * 5"`, which evaluates to `50`, not within epsilon
`0.0001` of `2`. -/
theorem findSolution_division_misses_parentheses :
    (2 : Int) ∈ reachableResults .medium [4, 5, 40]
    ∧ findSolution 2 [4, 5, 40] .medium [] = "40 / 4 * 5"
    ∧ findSolution 2 [4, 5, 40] .medium [] ≠ "Sin solución encontrada??"
    ∧ evaluateExpression "40 / 4 * 5" [] = some 50
    ∧ ¬ (|(50 : ℚ) - ((2 : Int) : ℚ)| < 1 / 10000) := by
  refine ⟨by decide, by decide, by decide, by decide, by decide⟩

/-- C5: `resolveRound` does not reject a second call on an already-resolved
round.  On `tieGame` the first call ends the match (`finished`, hp 0 and
125); the second call is again answered with a full round result and deals
the tie damage a second time, dropping player 2 from 125 to 100 hp. -/
theorem resolveRound_second_call_reapplies_damage :
    (resolveRound (some tieGame)).2.map (fun s => s.status)
        = some GStatus.finished
    ∧ (resolveRound (some tieGame)).2.map (fun s => s.player2.hp) = some 125
    ∧ ((resolveRound (some tieGame)).2.bind
        (fun s => (resolveRound (some s)).1)).isSome = true
    ∧ ((resolveRound (some tieGame)).2.bind
        (fun s => (resolveRound (some s)).1)).map
          (fun r => r.player2.damageTaken) = some 25
    ∧ ((resolveRound (some tieGame)).2.bind
        (fun s => (resolveRound (some s)).2)).map
          (fun s => s.player2.hp) = some 100 := by
  refine ⟨by decide, by decide, by decide, by decide, by decide⟩

/-- C4 counterexample: `calculateNormalizedDamage` classifies the difference
against the fixed cutoffs 0 / 5 / 10 rather than the profile's thresholds:
a difference of 9 lies beyond the hard profile's miss threshold 8, yet the
function still deals 10 damage (it takes no profile at all). -/
theorem calculateNormalizedDamage_ignores_profile_thresholds :
    (serverConfig .hard).accuracyThresholds.missAt = 8
    ∧ ((8 : ℚ) < 9)
    ∧ (calculateNormalizedDamage 2 [] 9 false).damage = 10
    ∧ (calculateNormalizedDamage 2 [] 9 false).damage ≠ 0
    ∧ (calculateNormalizedDamage 2 [] 9 false).miss = false := by
  refine ⟨by decide, by decide, by decide, by decide, by decide⟩

/-- C8: `calculateStreakBonus` increments the streak on an exact hit and
resets it to zero otherwise (so exact, exact, exact, non-exact from zero
yields 1, 2, 3, 0); its broken signal fires exactly when the result was
non-exact and the previous streak was at least 2; and `getStreakTier` returns
the tier of the profile's table with the greatest `minStreak` at most the
streak (at minimum the zero tier). -/
theorem streak_advance_and_tier_rules (s : Nat) (p : Bool) (d : Difficulty) :
    ((calculateStreakBonus s p d).newStreak = if p then s + 1 else 0)
    ∧ ((calculateStreakBonus s p d).streakBroken = (!p && decide (2 ≤ s)))
    ∧ (calculateStreakBonus 0 true d).newStreak = 1
    ∧ (calculateStreakBonus 1 true d).newStreak = 2
    ∧ (calculateStreakBonus 2 true d).newStreak = 3
    ∧ (calculateStreakBonus 3 false d).newStreak = 0
    ∧ (calculateStreakBonus 3 false d).streakBroken = true
    ∧ (calculateStreakBonus 1 false d).streakBroken = false
    ∧ getStreakTier s d ∈ streakConfig d
    ∧ (getStreakTier s d).minStreak ≤ s
    ∧ (∀ t ∈ streakConfig d, t.minStreak ≤ s →
        t.minStreak ≤ (getStreakTier s d).minStreak) := by
  refine ⟨rfl, rfl, ?_, ?_, ?_, ?_, ?_, ?_, ?_, ?_, ?_⟩ <;>
    first
      | (cases d <;> rfl)
      | skip
  all_goals
    rcases Nat.lt_or_ge s 7 with hs | hs
    · cases d <;> interval_cases s <;> decide
    · cases d <;>
        · have h6 : (decide (s ≥ 6)) = true := by simp; omega
          have h5 : (decide (s ≥ 5)) = true := by simp; omega
          simp only [getStreakTier, streakConfig, List.reverse_cons,
            List.reverse_nil, List.nil_append, List.cons_append, List.find?,
            h6, h5]
          first
            | decide
            | omega
            | (intro t ht hle
               fin_cases ht <;> simp_all)

/-- C4 amended: `calculateNormalizedDamage` classifies the difference against
the fixed cutoffs 0 / 5 / 10 (independent of any profile), applying
multipliers 1.0, 0.75 and 0.5 and forcing zero damage beyond 10 regardless of
the card, operator and division bonuses; the profile-specific thresholds
parameterize only the server's `calculateDamage`, where a difference at or
beyond the profile's miss threshold forces zero damage and one strictly below
it never classifies as a miss. -/
theorem damage_accuracy_classification (cardsUsed : Nat) (ops : List Char)
    (difference : ℚ) (hed : Bool) (d : Difficulty) (r : ℚ) (t : Int) :
    ((10 : ℚ) < difference →
        (calculateNormalizedDamage cardsUsed ops difference hed).damage = 0
        ∧ (calculateNormalizedDamage cardsUsed ops difference hed).miss = true
        ∧ (calculateNormalizedDamage cardsUsed ops difference hed).accuracyType
            = "miss")
    ∧ (difference = 0 →
        (calculateNormalizedDamage cardsUsed ops difference hed).accuracyMultiplier = 1
        ∧ (calculateNormalizedDamage cardsUsed ops difference hed).damage
            = (((20 + cardBonusTable cardsUsed + ops.dedup.length * 5
                + (if hed && ops.dedup.contains '/' then 10 else 0) : Nat) : ℚ) * 1).floor
        ∧ (calculateNormalizedDamage cardsUsed ops difference hed).accuracyType
            = "perfect"
        ∧ (calculateNormalizedDamage cardsUsed ops difference hed).miss = false)
    ∧ (difference ≠ 0 → difference ≤ 5 →
        (calculateNormalizedDamage cardsUsed ops difference hed).accuracyMultiplier
            = 3 / 4
        ∧ (calculateNormalizedDamage cardsUsed ops difference hed).damage
            = (((20 + cardBonusTable cardsUsed + ops.dedup.length * 5
                + (if hed && ops.dedup.contains '/' then 10 else 0) : Nat) : ℚ)
                * (3 / 4)).floor
        ∧ (calculateNormalizedDamage cardsUsed ops difference hed).accuracyType
            = "close"
        ∧ (calculateNormalizedDamage cardsUsed ops difference hed).miss = false)
    ∧ (¬(difference ≤ 5) → difference ≤ 10 →
        (calculateNormalizedDamage cardsUsed ops difference hed).accuracyMultiplier
            = 1 / 2
        ∧ (calculateNormalizedDamage cardsUsed ops difference hed).damage
            = (((20 + cardBonusTable cardsUsed + ops.dedup.length * 5
                + (if hed && ops.dedup.contains '/' then 10 else 0) : Nat) : ℚ)
                * (1 / 2)).floor
        ∧ (calculateNormalizedDamage cardsUsed ops difference hed).accuracyType
            = "far"
        ∧ (calculateNormalizedDamage cardsUsed ops difference hed).miss = false)
    ∧ (((serverConfig d).accuracyThresholds.missAt : ℚ) ≤ |r - (t : ℚ)| →
        calculateDamage (some r) t d = ⟨0, "miss", true⟩)
    ∧ (|r - (t : ℚ)| < ((serverConfig d).accuracyThresholds.missAt : ℚ) →
        (calculateDamage (some r) t d).isMiss = false
        ∧ 0 < (calculateDamage (some r) t d).damage) := by
  refine ⟨?_, ?_, ?_, ?_, ?_, ?_⟩
  · intro h
    unfold calculateNormalizedDamage
    rw [if_neg (by intro h0; rw [h0] at h; linarith),
      if_neg (by intro h0; linarith), if_neg (by intro h0; linarith)]
    exact ⟨rfl, rfl, rfl⟩
  · intro h
    unfold calculateNormalizedDamage
    rw [if_pos h]
    exact ⟨rfl, rfl, rfl, rfl⟩
  · intro h1 h2
    unfold calculateNormalizedDamage
    rw [if_neg h1, if_pos h2]
    exact ⟨rfl, rfl, rfl, rfl⟩
  · intro h1 h2
    unfold calculateNormalizedDamage
    rw [if_neg (by intro h0; exact h1 (by rw [h0]; norm_num)), if_neg h1,
      if_pos h2]
    exact ⟨rfl, rfl, rfl, rfl⟩
  · intro h
    cases d <;>
      · simp only [calculateDamage, serverConfig] at h ⊢
        split_ifs with h1 h2 h3 h4 h5 <;>
          first
            | rfl
            | (exfalso; simp_all; linarith)
  · intro h
    cases d <;>
      · simp only [calculateDamage, serverConfig] at h ⊢
        split_ifs with h1 h2 h3 h4 h5 <;> simp_all <;> linarith

/-- Witness for C3: on `missGame` (player 1 exact on target, player 2 with a
`null` result) player 1 wins the round, deals the full 50 damage and takes
none. -/
theorem resolveRound_winner_and_damage_witness :
    (resolveRoundG missGame).1.roundWinner = "Alice"
    ∧ (resolveRoundG missGame).1.player1.damageTaken = 0
    ∧ (resolveRoundG missGame).1.player2.damageTaken = 50 := by
  obtain ⟨hw, h1, h2⟩ :=
    (resolveRound_winner_and_damage missGame).2.2.2.2.2.2.2 (by decide) (by decide)
  exact ⟨hw, h1, h2.trans (by decide)⟩

/-- Witness for C4: a difference of 12 is a forced zero-damage miss for
`calculateNormalizedDamage`, a difference of 9 at the hard profile is a miss
for the server's `calculateDamage`, and a difference of 7 there is not. -/
theorem damage_accuracy_classification_witness :
    (calculateNormalizedDamage 3 ['+', '*'] 12 false).damage = 0
    ∧ (calculateNormalizedDamage 3 ['+', '*'] 12 false).miss = true
    ∧ calculateDamage (some 19) 10 .hard = ⟨0, "miss", true⟩
    ∧ (calculateDamage (some 17) 10 .hard).isMiss = false := by
  obtain ⟨hd, hm, -⟩ :=
    (damage_accuracy_classification 3 ['+', '*'] 12 false .hard 19 10).1
      (by norm_num)
  refine ⟨hd, hm, ?_, ?_⟩
  · exact (damage_accuracy_classification 3 ['+', '*'] 12 false .hard 19 10).2.2.2.2.1
      (by norm_num [serverConfig])
  · exact ((damage_accuracy_classification 3 ['+', '*'] 12 false .hard 17 10).2.2.2.2.2
      (by norm_num [serverConfig])).1

/-- Witness for C6: on `freshGame`, after player 1 submits `4+6`, a second
submission by player 1 is rejected and the stored expression stays `4+6`. -/
theorem submitPlayerExpression_rejects_and_preserves_witness :
    (submitPlayerExpression (some freshGame) "s1" "4+6").2.map
        (fun s =>
          (if freshGame.player1.id = "s1" then s.player1 else s.player2).expression)
      = some "4+6"
    ∧ submitPlayerExpression
        ((submitPlayerExpression (some freshGame) "s1" "4+6").2) "s1" "999"
      = (⟨false, some "Ya enviaste tu expresión"⟩,
         (submitPlayerExpression (some freshGame) "s1" "4+6").2) := by
  exact (submitPlayerExpression_rejects_and_preserves freshGame "s1" "4+6"
    "999").2.2.2 (by decide)

/-- Witness for C7: `doubleKoGame`'s round reduces both players to exactly
zero health and the match ends in a draw. -/
theorem resolveRound_health_and_termination_witness :
    (resolveRoundG doubleKoGame).1.gameOver = true
    ∧ (resolveRoundG doubleKoGame).1.winner = some "draw"
    ∧ ((resolveRoundG doubleKoGame).2).status = .finished := by
  exact (resolveRound_health_and_termination doubleKoGame).2.2.2.2.2
    (by decide) (by decide)

/-- Witness for C8: on the medium profile a non-exact result after a streak
of 4 fires the broken signal, and the tier with threshold 3 is dominated by
the returned tier. -/
theorem streak_advance_and_tier_rules_witness :
    (calculateStreakBonus 4 false .medium).streakBroken = true
    ∧ 3 ≤ (getStreakTier 4 .medium).minStreak := by
  refine ⟨?_, ?_⟩
  · exact ((streak_advance_and_tier_rules 4 false .medium).2.1).trans (by decide)
  · exact (streak_advance_and_tier_rules 4 false .medium).2.2.2.2.2.2.2.2.2.2
      ⟨3, "Imparable", "🔥🔥", 15, 2, "#FF6B35"⟩ (by decide) (by decide)

/-- Witness for C9: on `freshGame` the two submission orders produce the same
state. -/
theorem submission_order_commutes_witness :
    (submitPlayerExpression
        ((submitPlayerExpression (some freshGame) freshGame.player1.id "4+6").2)
        freshGame.player2.id "10").2
      = (submitPlayerExpression
          ((submitPlayerExpression (some freshGame) freshGame.player2.id "10").2)
          freshGame.player1.id "4+6").2 := by
  exact (submission_order_commutes freshGame "4+6" "10" (by decide)).1

/-- Witness for C10: skipping player 2's turn on `freshGame` succeeds and
stores the empty expression with a `null` result. -/
theorem skipPlayerTurn_refines_empty_submission_witness :
    (skipPlayerTurn (some freshGame) "s2").1.success = true
    ∧ (skipPlayerTurn (some freshGame) "s2").2.map
        (fun s => if freshGame.player1.id = "s2" then s.player1 else s.player2)
      = some { (if freshGame.player1.id = "s2" then freshGame.player1
                else freshGame.player2) with
               expression := "", submitted := true, result := none } := by
  exact (skipPlayerTurn_refines_empty_submission (some freshGame) "s2").2.2.1
    freshGame (by decide) (by decide)

end AlgebraPvp
